import Mathlib

set_option maxRecDepth 10000

/-!
Shallow embedding of the ACES_HCU firmware (HCU_Funcs.c / HCU_Funcs.h / main.c).

Modelling conventions:
* 8-bit registers and counters are `Nat` kept below `2 ^ 8` by the operations
  (`% 2 ^ 8` where the C code truncates); the 16-bit `OCR1B` uses `% 65536`.
* C `float` arithmetic is modelled by exact rationals `ℚ`; every numeric fact
  proved below is decided at values far from any rounding boundary of
  single-precision floats, so the idealisation is faithful for these claims.
* The cast `(uint16_t)` of a negative float and the `int8_t` overflow on
  `desired_pulses - pulse_count` are modelled as two's-complement wrapping,
  which is what avr-gcc produces.
* Hardware-input reads (the ADC conversions, the INT2 pulse train) are
  modelled as explicit parameters: one scan pass takes the six measured
  temperatures, one flow window takes the number of pulse edges observed.
* The globals `pump_count`, `pump_lock`, `pwm_count`, `hand_pwm`,
  `output_count`, `flow_save`, `pulse_count_array` are used by the sources but
  declared in a file not present under src/. Modelled from the spec: the spec
  calls them the PumpController window/lock-out counters and the per-window
  flow log; they are modelled as 8-bit unsigned counters and total maps.
-/

/-- Constant from HCU_Funcs.h line 32: desired fuel mass flow in g/sec. -/
def fuelFlow : ℚ := 48/10

/-- Constant from HCU_Funcs.h line 35: acceptable flow error in g/sec. -/
def fuelError : ℚ := 13/100

/-- Constant from HCU_Funcs.h line 38. -/
def TempBat : ℚ := 10

/-- Constant from HCU_Funcs.h line 41. -/
def TempHopper : ℚ := 10

/-- Constant from HCU_Funcs.h line 44. -/
def TempECU : ℚ := 1000

/-- Constant from HCU_Funcs.h line 47. -/
def TempFLine1 : ℚ := 10

/-- Constant from HCU_Funcs.h line 50. -/
def TempFLine2 : ℚ := 1000

/-- Constant from HCU_Funcs.h line 53. -/
def TempESB : ℚ := 10

/-- Constant from HCU_Funcs.h line 56: 0 means the dummy ECU is present. -/
def ECU_present : Nat := 0

/-- Constant from HCU_Funcs.h line 107: flow meter K factor in pulses/liter. -/
def K_factor : ℚ := 91387

/-- Constant from HCU_Funcs.h line 110: kerosene density in g/ml. -/
def density : ℚ := 81/100

/-- Constant from HCU_Funcs.h line 113: 8-bit timer window length in seconds. -/
def max_time : ℚ := 262144/1000000

/-- Constant from HCU_Funcs.h line 116: pump voltage-per-massflow slope. -/
def pump_m : ℚ := 382587/1000000

/-- Constant from HCU_Funcs.h line 122: total pump drive voltage. -/
def pump_tot_V : ℚ := 222/10

/-- Constant from HCU_Funcs.h line 125. -/
def ECU_duty : ℚ := 1/2

/-- Constant from HCU_Funcs.h line 128. -/
def F_line_duty : ℚ := 20946/100000

/-- Pin constant from HCU_Funcs.h line 66. -/
def ECUon_Pin : Nat := 7

/-- Pin constant from HCU_Funcs.h line 71. -/
def Warm_LED : Nat := 1

/-- Pin constant from HCU_Funcs.h line 74. -/
def ECU_pin : Nat := 3

/-- Pin constant from HCU_Funcs.h line 82. -/
def BatPin : Nat := 0

/-- Pin constant from HCU_Funcs.h line 85. -/
def HopperPin : Nat := 1

/-- Pin constant from HCU_Funcs.h line 88. -/
def FLine1Pin : Nat := 2

/-- Pin constant from HCU_Funcs.h line 91. -/
def ESB_Pin : Nat := 3

/-- Pin constant from HCU_Funcs.h line 94. -/
def Alive_LED : Nat := 5

/-- Pin constant from HCU_Funcs.h line 97. -/
def Fuel_LED : Nat := 6

/-- Pin constant from HCU_Funcs.h line 100. -/
def Fline2Pin : Nat := 7

/-- ATmega32 register bit position (avr/io.h). -/
def CS00 : Nat := 0

/-- ATmega32 register bit position (avr/io.h). -/
def CS01 : Nat := 1

/-- ATmega32 register bit position (avr/io.h). -/
def CS02 : Nat := 2

/-- ATmega32 register bit position (avr/io.h). -/
def WGM01 : Nat := 3

/-- ATmega32 register bit position (avr/io.h). -/
def COM00 : Nat := 4

/-- ATmega32 register bit position (avr/io.h). -/
def COM01 : Nat := 5

/-- ATmega32 register bit position (avr/io.h). -/
def WGM00 : Nat := 6

/-- ATmega32 register bit position (avr/io.h). -/
def CS20 : Nat := 0

/-- ATmega32 register bit position (avr/io.h). -/
def CS21 : Nat := 1

/-- ATmega32 register bit position (avr/io.h). -/
def CS22 : Nat := 2

/-- ATmega32 register bit position (avr/io.h). -/
def WGM21 : Nat := 3

/-- ATmega32 register bit position (avr/io.h). -/
def COM20 : Nat := 4

/-- ATmega32 register bit position (avr/io.h). -/
def COM21 : Nat := 5

/-- ATmega32 register bit position (avr/io.h). -/
def WGM20 : Nat := 6

/-- ATmega32 register bit position (avr/io.h). -/
def WGM11 : Nat := 1

/-- ATmega32 register bit position (avr/io.h). -/
def COM1B0 : Nat := 4

/-- ATmega32 register bit position (avr/io.h). -/
def COM1B1 : Nat := 5

/-- ATmega32 register bit position (avr/io.h). -/
def CS10 : Nat := 0

/-- ATmega32 register bit position (avr/io.h). -/
def CS11 : Nat := 1

/-- ATmega32 register bit position (avr/io.h). -/
def WGM12 : Nat := 3

/-- ATmega32 register bit position (avr/io.h). -/
def WGM13 : Nat := 4

/-- ATmega32 register bit position (avr/io.h). -/
def TOIE1 : Nat := 2

/-- ATmega32 register bit position (avr/io.h). -/
def TOIE2 : Nat := 6

/-- ATmega32 register bit position (avr/io.h). -/
def ISC2 : Nat := 6

/-- ATmega32 register bit position (avr/io.h). -/
def INT2 : Nat := 5

/-- ATmega32 register bit position (avr/io.h). -/
def INTF2 : Nat := 5

/-- ATmega32 register bit position (avr/io.h). -/
def TOV1 : Nat := 2

/-- ATmega32 register bit position (avr/io.h). -/
def ADPS2 : Nat := 2

/-- ATmega32 register bit position (avr/io.h). -/
def ADEN : Nat := 7

/-- ATmega32 register bit position (avr/io.h). -/
def REFS0 : Nat := 6

/-- Global state of the HCU firmware: the AVR I/O registers it writes plus
the globals of HCU_Funcs.h (lines 143-175) and the counters used by
HCU_Funcs.c that are declared outside the provided sources. -/
structure HCU where
  DDRA : Nat
  DDRB : Nat
  DDRC : Nat
  DDRD : Nat
  PORTA : Nat
  PORTB : Nat
  PORTD : Nat
  ADMUX : Nat
  ADCSRA : Nat
  TCCR0 : Nat
  TCCR1A : Nat
  TCCR1B : Nat
  TCCR2 : Nat
  TIMSK : Nat
  MCUCSR : Nat
  GICR : Nat
  GIFR : Nat
  TIFR : Nat
  TCNT0 : Nat
  TCNT1 : Nat
  TCNT2 : Nat
  OCR0 : Nat
  OCR2 : Nat
  OCR1B : Nat
  ICR1 : Nat
  opMode : Nat
  duty_cycle : ℚ
  saveTemps : Fin 6 → ℚ
  desired_temp : Nat
  desired_pulses : Nat
  pulse_error_allow : Nat
  pulse_count : Nat
  alive_counter : Nat
  V_per_pulse : ℚ
  measured_flow : ℚ
  pump_count : Nat
  pump_lock : Nat
  pwm_count : Nat
  hand_pwm : Nat
  output_count : Nat
  flow_save : Nat → ℚ
  pulse_count_array : Nat → Nat

/-- Truncation of a rational toward zero, the rounding of a C float-to-int
cast. -/
def truncQ (q : ℚ) : Int := if q < 0 then -⌊-q⌋ else ⌊q⌋

/-- Reinterpretation of an integer as a signed 8-bit value (two's-complement
wrap), the conversion applied when a C int is stored into an `int8_t`. -/
def wrap8 (z : Int) : Int := (z + 128) % 256 - 128

/-- Embedding of `assign_bit` (HCU_Funcs.c lines 463-475): writes bit `bit`
of an 8-bit register to `val`. -/
def assign_bit (sfr : Nat) (bit : Nat) (val : Nat) : Nat :=
  if val ≠ 0 then (sfr ||| ((val <<< bit) % 2 ^ 8)) % 2 ^ 8
  else sfr &&& ((2 ^ 8 - 1) ^^^ ((1 <<< bit) % 2 ^ 8))

/-- The expected pulses per window computed in `Initial`
(HCU_Funcs.c line 53): `(fuelFlow / density) * K_factor * max_time / 1000`. -/
def pulse_flow : ℚ := fuelFlow / density * K_factor * max_time / 1000

/-- `V_per_pulse` as computed in `Initial` (HCU_Funcs.c line 54). -/
def init_V_per_pulse : ℚ := pump_m * (fuelFlow / pulse_flow)

/-- `desired_pulses` as computed in `Initial` (HCU_Funcs.c line 55):
`(uint8_t) pulse_flow`. -/
def init_desired_pulses : Nat := (truncQ pulse_flow).toNat % 2 ^ 8

/-- `pulse_error_allow` as computed in `Initial` (HCU_Funcs.c line 56). -/
def init_pulse_error_allow : Nat :=
  (truncQ ((init_desired_pulses : ℚ) * (fuelError / fuelFlow))).toNat % 2 ^ 8

/-- Embedding of `ECU_toggle` (HCU_Funcs.c lines 451-454). -/
def ECU_toggle (ECU_mode : Nat) (s : HCU) : HCU :=
  { s with PORTA := assign_bit s.PORTA ECUon_Pin ECU_mode }

/-- Embedding of `Initial` (HCU_Funcs.c lines 38-113).  `sei()` and the
busy-wait-free hardware enables have no modelled effect beyond the register
writes shown. -/
def Initial (s : HCU) : HCU :=
  { s with
    DDRA := 0b10000000
    DDRB := 0b11011010
    DDRC := 0xFF
    DDRD := 0xFF
    opMode := 0
    desired_temp := 0
    duty_cycle := 55/100
    V_per_pulse := init_V_per_pulse
    desired_pulses := init_desired_pulses
    pulse_error_allow := init_pulse_error_allow
    MCUCSR := assign_bit s.MCUCSR ISC2 1
    GIFR := assign_bit s.GIFR INTF2 1
    ADCSRA := (s.ADCSRA ||| 1 <<< ADPS2 ||| 1 <<< ADEN) % 2 ^ 8
    ADMUX := (s.ADMUX ||| 1 <<< REFS0) % 2 ^ 8
    TIMSK := (s.TIMSK ||| 1 <<< TOIE1) % 2 ^ 8
    TCCR1B := (s.TCCR1B ||| 1 <<< CS11) % 2 ^ 8
    TCNT1 := 3036
    saveTemps := fun _ => -100
    TCNT0 := 0
    TCCR0 := (assign_bit (assign_bit (assign_bit (assign_bit s.TCCR0
        WGM01 1) WGM00 1) COM01 1) COM00 1 ||| 1 <<< CS02) % 2 ^ 8
    OCR0 := (truncQ (255 - 255 * ECU_duty)).toNat % 2 ^ 8
    TCNT2 := 0
    TCCR2 := (assign_bit (assign_bit (assign_bit (assign_bit s.TCCR2
        WGM21 1) WGM20 1) COM21 1) COM20 1 ||| 1 <<< CS22) % 2 ^ 8
    OCR2 := (truncQ (255 - 255 * F_line_duty)).toNat % 2 ^ 8
    PORTD := assign_bit (assign_bit (assign_bit (assign_bit s.PORTD
        BatPin 1) HopperPin 1) FLine1Pin 1) ESB_Pin 1
    output_count := 0
    hand_pwm := 7
    pwm_count := 0 }

/-- Embedding of `change_timers` (HCU_Funcs.c lines 494-555). -/
def change_timers (s0 : HCU) : HCU :=
  let s := { s0 with
    opMode := 1
    PORTB := assign_bit s0.PORTB Warm_LED 1
    pump_count := 39 }
  let s := ECU_toggle ECU_present s
  if ECU_present = 0 then
    let s := { s with
      TIMSK := assign_bit s.TIMSK TOIE1 0
      TCCR1B := assign_bit s.TCCR1B CS11 0 }
    let s := { s with TCCR1A := (s.TCCR1A ||| 1 <<< WGM11) % 2 ^ 8 }
    let s := { s with
      TCCR1B := (s.TCCR1B ||| (1 <<< WGM12 ||| 1 <<< WGM13)) % 2 ^ 8 }
    let s := { s with
      TCCR1A := (s.TCCR1A ||| (1 <<< COM1B1 ||| 1 <<< COM1B0)) % 2 ^ 8 }
    let s := { s with ICR1 := 1000 }
    let s := { s with
      OCR1B := s.ICR1 - (truncQ ((s.ICR1 : ℚ) * s.duty_cycle)).toNat }
    let s := { s with
      TCCR1B := assign_bit s.TCCR1B CS10 1
      pump_lock := 5 }
    let s := { s with TCCR0 := 0 }
    let s := { s with
      TCCR0 := assign_bit (assign_bit (assign_bit s.TCCR0 CS02 0)
        CS01 0) CS00 0 }
    let s := { s with MCUCSR := (s.MCUCSR ||| 1 <<< ISC2) % 2 ^ 8 }
    { s with
      PORTD := assign_bit s.PORTD Alive_LED 1
      TIMSK := (s.TIMSK ||| 1 <<< TOIE2) % 2 ^ 8
      TCNT2 := 11
      alive_counter := 0
      TCCR2 := 0x07 }
  else
    let s := { s with
      opMode := 2
      PORTD := assign_bit s.PORTD Fuel_LED 1 }
    let s := { s with
      TIMSK := (s.TIMSK ||| 1 <<< TOIE2) % 2 ^ 8
      TCNT2 := 60 }
    let s := { s with
      PORTD := assign_bit s.PORTD Alive_LED 1
      alive_counter := 0
      TCCR2 := 0x06 }
    { s with TCCR0 := 0, TCCR1B := 0, TCCR1A := 0 }

/-- Case 0 of the scan loop in `tempHeaterHelper` (HCU_Funcs.c lines
231-241): the Lipo battery channel. -/
def heaterCase0 (s : HCU) : HCU :=
  if s.saveTemps 0 > TempBat then
    { s with
      desired_temp := s.desired_temp ||| 0x01
      PORTD := assign_bit s.PORTD BatPin 0 }
  else if s.saveTemps 0 < TempBat then
    { s with PORTD := assign_bit s.PORTD BatPin 1 }
  else s

/-- Case 1 of the scan loop in `tempHeaterHelper` (HCU_Funcs.c lines
243-251): the hopper channel. -/
def heaterCase1 (s : HCU) : HCU :=
  if s.saveTemps 1 < TempHopper then
    { s with PORTD := assign_bit s.PORTD HopperPin 1 }
  else if s.saveTemps 1 > TempHopper then
    { s with
      PORTD := assign_bit s.PORTD HopperPin 0
      desired_temp := s.desired_temp ||| 0x02 }
  else s

/-- Case 2 of the scan loop in `tempHeaterHelper` (HCU_Funcs.c lines
253-286): the ECU channel. -/
def heaterCase2 (s : HCU) : HCU :=
  if s.saveTemps 2 < TempECU then
    if s.opMode = 0 then
      { s with
        TCCR0 := assign_bit (assign_bit (assign_bit s.TCCR0 COM01 1)
          COM00 1) CS02 1 }
    else if s.opMode = 2 then
      if s.pwm_count = s.hand_pwm then
        { s with PORTB := assign_bit s.PORTB ECU_pin 1 }
      else
        { s with PORTB := assign_bit s.PORTB ECU_pin 0 }
    else s
  else if s.saveTemps 2 > TempECU then
    if s.opMode ≠ 1 then
      { s with
        TCCR0 := assign_bit (assign_bit (assign_bit s.TCCR0 CS02 0)
          COM01 0) COM00 0
        PORTB := assign_bit s.PORTB ECU_pin 0
        desired_temp := s.desired_temp ||| 0x04 }
    else
      { s with PORTB := assign_bit s.PORTB ECU_pin 0 }
  else s

/-- Case 3 of the scan loop in `tempHeaterHelper` (HCU_Funcs.c lines
288-296): the first fuel line channel. -/
def heaterCase3 (s : HCU) : HCU :=
  if s.saveTemps 3 < TempFLine1 then
    { s with PORTD := assign_bit s.PORTD FLine1Pin 1 }
  else if s.saveTemps 3 > TempFLine1 then
    { s with
      PORTD := assign_bit s.PORTD FLine1Pin 0
      desired_temp := s.desired_temp ||| 0x08 }
  else s

/-- Case 4 of the scan loop in `tempHeaterHelper` (HCU_Funcs.c lines
298-328): the second fuel line channel. -/
def heaterCase4 (s : HCU) : HCU :=
  if s.saveTemps 4 < TempFLine2 then
    if s.opMode = 0 then
      { s with
        TCCR2 := assign_bit (assign_bit (assign_bit s.TCCR2 COM21 1)
          COM20 1) CS22 1 }
    else if s.opMode = 2 then
      if s.pwm_count = s.hand_pwm then
        { s with PORTD := assign_bit s.PORTD Fline2Pin 1 }
      else
        { s with PORTD := assign_bit s.PORTD Fline2Pin 0 }
    else s
  else if s.saveTemps 4 > TempFLine2 then
    if s.opMode = 0 then
      { s with
        TCCR2 := assign_bit (assign_bit (assign_bit s.TCCR2 CS22 0)
          COM21 0) COM20 0
        PORTD := assign_bit s.PORTD Fline2Pin 0
        desired_temp := s.desired_temp ||| 0x10 }
    else s
  else s

/-- Case 5 of the scan loop in `tempHeaterHelper` (HCU_Funcs.c lines
330-338): the ESB channel. -/
def heaterCase5 (s : HCU) : HCU :=
  if s.saveTemps 5 < TempESB then
    { s with PORTD := assign_bit s.PORTD ESB_Pin 1 }
  else if s.saveTemps 5 > TempESB then
    { s with
      PORTD := assign_bit s.PORTD ESB_Pin 0
      desired_temp := s.desired_temp ||| 0x20 }
  else s

/-- The six-channel scan pass of `tempHeaterHelper` (the `for` loop,
HCU_Funcs.c lines 228-341). -/
def heaterScan (s : HCU) : HCU :=
  heaterCase5 (heaterCase4 (heaterCase3 (heaterCase2 (heaterCase1
    (heaterCase0 s)))))

/-- Embedding of `tempHeaterHelper` (HCU_Funcs.c lines 226-353): the scan
pass followed by the all-satisfied check that fires `change_timers` once. -/
def tempHeaterHelper (s : HCU) : HCU :=
  let t := heaterScan s
  if t.desired_temp = 0x3F then
    if t.opMode = 0 then change_timers t else t
  else t

/-- Embedding of `tempConversion` (HCU_Funcs.c lines 160-205).  The ADC
multiplexer walk and busy-waits read the six channel temperatures from
hardware; they enter the model as the `temps` argument.  The trailing
`_delay_ms` has no modelled effect. -/
def tempConversion (temps : Fin 6 → ℚ) (s : HCU) : HCU :=
  tempHeaterHelper { s with saveTemps := temps }

/-- The local `int8_t pulse_error = desired_pulses - pulse_count` of
`flowMeter` (HCU_Funcs.c line 392), for a window that observed `n` edges:
the subtraction is truncated into a signed 8-bit value. -/
def pulseErrorOf (s : HCU) (n : Nat) : Int :=
  wrap8 ((s.desired_pulses : Int) - ((n % 2 ^ 8 : Nat) : Int))

/-- The local `float change` of `flowMeter` (HCU_Funcs.c line 433):
`pulse_error * V_per_pulse * ICR1 / pump_tot_V`. -/
def changeOf (s : HCU) (n : Nat) : ℚ :=
  (pulseErrorOf s n : ℚ) * s.V_per_pulse * (s.ICR1 : ℚ) / pump_tot_V

/-- The absolute value of `pulse_error` as computed by `flowMeter`
(HCU_Funcs.c lines 437-438): the negation wraps in `int8_t`, so
`pulse_error = -128` stays `-128`. -/
def peAbs (s : HCU) (n : Nat) : Int :=
  if pulseErrorOf s n < 0 then wrap8 (-pulseErrorOf s n) else pulseErrorOf s n

/-- The local `measured_flow` of `flowMeter` (HCU_Funcs.c lines 393-394). -/
def measuredOf (s : HCU) (n : Nat) : ℚ :=
  s.V_per_pulse * ((n % 2 ^ 8 : Nat) : ℚ) / pump_m

/-- Embedding of `flowMeter` (HCU_Funcs.c lines 373-444).  The INT2 pulse
interrupts during the hardware-timed window enter the model as `n`, the
number of edges observed; the `uint8_t` counter makes it `n % 2 ^ 8`. -/
def flowMeter (n : Nat) (s : HCU) : HCU :=
  -- lines 376-390: reset the counter, run the window, decrement pump_count
  let pc := (s.pump_count + 255) % 2 ^ 8
  -- lines 392-394
  let measured : ℚ := measuredOf s n
  let s1 : HCU := { s with
    pulse_count := n % 2 ^ 8
    GICR := assign_bit ((s.GICR ||| 1 <<< INT2) % 2 ^ 8) INT2 0
    TCNT0 := 0
    TIFR := assign_bit s.TIFR TOV1 1
    TCCR0 := assign_bit (assign_bit (assign_bit s.TCCR0 CS02 1) CS01 0)
      CS00 1
    pump_count := pc
    measured_flow := measured
    flow_save := fun j => if j = pc then measured else s.flow_save j
    pulse_count_array := fun j => if j = pc then n % 2 ^ 8 else
      s.pulse_count_array j }
  if s.pump_lock ≠ 0 then
    -- lines 400-402: lock-out window, only decrement pump_lock
    { s1 with pump_lock := s.pump_lock - 1 }
  else if pc = 0 then
    -- lines 403-429: exhaustion branch
    { s1 with
      TCCR1B := assign_bit (assign_bit (assign_bit s1.TCCR1B CS10 0)
        WGM12 0) WGM13 0
      TCCR1A := assign_bit (assign_bit s1.TCCR1A COM1B1 0) COM1B0 0
      PORTD := assign_bit (assign_bit (assign_bit (assign_bit (assign_bit
        (assign_bit (assign_bit (assign_bit s1.PORTD 4 0) Fuel_LED 1)
          Alive_LED 1) 0 0) 1 0) 2 0) 3 0) 7 0
      TCNT2 := 60
      alive_counter := 0
      TCCR2 := 0x06
      PORTB := assign_bit s1.PORTB 3 0
      opMode := 2 }
  else
    -- lines 430-443: proportional adjustment and fuel LED
    let s2 : HCU := { s1 with
      OCR1B := (((s.OCR1B : Int) - truncQ (changeOf s n / 3)) % 65536).toNat }
    if peAbs s n ≤ (s.pulse_error_allow : Int) then
      { s2 with PORTD := (s2.PORTD ||| 1 <<< Fuel_LED) % 2 ^ 8 }
    else
      { s2 with PORTD := (s2.PORTD ^^^ 1 <<< Fuel_LED) % 2 ^ 8 }

/-- Embedding of `ISR(TIMER1_OVF_vect)` (HCU_Funcs.c lines 128-139): the
Heating-mode heartbeat tick. -/
def timer1_ovf (s : HCU) : HCU :=
  let s := { s with alive_counter := (s.alive_counter + 1) % 2 ^ 8 }
  let s := if s.alive_counter % 2 = 1 then
    { s with PORTD := (s.PORTD ^^^ 1 <<< Alive_LED) % 2 ^ 8 }
  else s
  { s with
    PORTB := (s.PORTB ^^^ 1 <<< Warm_LED) % 2 ^ 8
    TCNT1 := 3036 }

/-- Embedding of `ISR(TIMER2_OVF_vect)` (HCU_Funcs.c lines 582-625): the
Pumping/Exhausted-mode heartbeat tick. -/
def timer2_ovf (s : HCU) : HCU :=
  if s.opMode = 1 then
    if s.alive_counter = 2 then
      { s with
        PORTD := assign_bit s.PORTD Alive_LED 0
        alive_counter := (s.alive_counter + 1) % 2 ^ 8
        TCNT2 := 11 }
    else if s.alive_counter = 3 then
      { s with
        PORTD := assign_bit s.PORTD Alive_LED 1
        alive_counter := 0
        TCNT2 := 11 }
    else
      { s with alive_counter := (s.alive_counter + 1) % 2 ^ 8, TCNT2 := 11 }
  else
    if s.alive_counter = 1 then
      { s with
        PORTD := assign_bit s.PORTD Alive_LED 0
        alive_counter := (s.alive_counter + 1) % 2 ^ 8
        TCNT2 := 60 }
    else if s.alive_counter = 19 then
      { s with
        PORTD := assign_bit s.PORTD Alive_LED 1
        alive_counter := 0
        TCNT2 := 60 }
    else
      { s with alive_counter := (s.alive_counter + 1) % 2 ^ 8, TCNT2 := 60 }

/-- The `output_count++` at the top of the main loop (main.c line 15). -/
def mainCount (s : HCU) : HCU :=
  { s with output_count := (s.output_count + 1) % 2 ^ 8 }

/-- The conditional flow window of the main loop (main.c lines 17-18):
`if (!ECU_present && (opMode == 1)) flowMeter();`. -/
def mainFlow (pulses : Nat) (s : HCU) : HCU :=
  if ECU_present = 0 ∧ s.opMode = 1 then flowMeter pulses s else s

/-- The hand-made PWM counter update at the bottom of the main loop
(main.c lines 19-21). -/
def mainPwm (s : HCU) : HCU :=
  { s with pwm_count := if (s.pwm_count + 1) % 2 ^ 8 > s.hand_pwm then 0
    else (s.pwm_count + 1) % 2 ^ 8 }

/-- One pass of the main loop (main.c lines 15-21): a scan-and-regulate pass
followed, in Pumping mode without a real ECU, by one flow window. -/
def mainStep (temps : Fin 6 → ℚ) (pulses : Nat) (s : HCU) : HCU :=
  mainPwm (mainFlow pulses (tempConversion temps (mainCount s)))

/-- A run of main-loop passes: each element gives the temperatures read in
that pass and the pulses the flow window would observe. -/
def runTrace (steps : List ((Fin 6 → ℚ) × Nat)) (s : HCU) : HCU :=
  steps.foldl (fun st inp => mainStep inp.1 inp.2 st) s

/-- Number of Heating-to-Pumping edges (`opMode` leaving 0) along a run. -/
def countTransitions : List ((Fin 6 → ℚ) × Nat) → HCU → Nat
  | [], _ => 0
  | inp :: rest, s =>
    let t := mainStep inp.1 inp.2 s
    (if s.opMode = 0 ∧ t.opMode ≠ 0 then 1 else 0) + countTransitions rest t

/-- A sequence of flow windows applied in order. -/
def applyWindows (ns : List Nat) (s : HCU) : HCU :=
  ns.foldl (fun st n => flowMeter n st) s

/-- Whether the Alive LED output is driven high. -/
def aliveOn (s : HCU) : Bool := s.PORTD.testBit Alive_LED

/-- Whether the warming LED output is driven high. -/
def warmOn (s : HCU) : Bool := s.PORTB.testBit Warm_LED

/-- Number of ticks, among the first `n` heartbeat intervals of the run of
`f` from `s`, during which the observed LED is on. -/
def ledOnCount (f : HCU → HCU) (obs : HCU → Bool) : HCU → Nat → Nat
  | _, 0 => 0
  | s, n + 1 => (if obs s then 1 else 0) + ledOnCount f obs (f s) n

/-- The part of the state that drives the timer-2 heartbeat cadence:
mode, sub-counter, Alive-LED level. -/
def trip (s : HCU) : Nat × Nat × Bool := (s.opMode, s.alive_counter, aliveOn s)

/-- The timer-2 heartbeat cadence machine on the abstracted triple;
mirrors the branch structure of `ISR(TIMER2_OVF_vect)`. -/
def tripStep (t : Nat × Nat × Bool) : Nat × Nat × Bool :=
  if t.1 = 1 then
    if t.2.1 = 2 then (t.1, (t.2.1 + 1) % 2 ^ 8, false)
    else if t.2.1 = 3 then (t.1, 0, true)
    else (t.1, (t.2.1 + 1) % 2 ^ 8, t.2.2)
  else
    if t.2.1 = 1 then (t.1, (t.2.1 + 1) % 2 ^ 8, false)
    else if t.2.1 = 19 then (t.1, 0, true)
    else (t.1, (t.2.1 + 1) % 2 ^ 8, t.2.2)

/-- On-tick counter for the abstracted heartbeat machine. -/
def tripCount : Nat × Nat × Bool → Nat → Nat
  | _, 0 => 0
  | t, n + 1 => (if t.2.2 then 1 else 0) + tripCount (tripStep t) n

/-- An all-zero state, used to build concrete witness states. -/
def zState : HCU :=
  { DDRA := 0, DDRB := 0, DDRC := 0, DDRD := 0, PORTA := 0, PORTB := 0
    PORTD := 0, ADMUX := 0, ADCSRA := 0, TCCR0 := 0, TCCR1A := 0
    TCCR1B := 0, TCCR2 := 0, TIMSK := 0, MCUCSR := 0, GICR := 0, GIFR := 0
    TIFR := 0, TCNT0 := 0, TCNT1 := 0, TCNT2 := 0, OCR0 := 0, OCR2 := 0
    OCR1B := 0, ICR1 := 0, opMode := 0, duty_cycle := 0
    saveTemps := fun _ => 0, desired_temp := 0, desired_pulses := 0
    pulse_error_allow := 0, pulse_count := 0, alive_counter := 0
    V_per_pulse := 0, measured_flow := 0, pump_count := 0, pump_lock := 0
    pwm_count := 0, hand_pwm := 0, output_count := 0, flow_save := fun _ => 0
    pulse_count_array := fun _ => 0 }

lemma one_shiftLeft_eq (b : Nat) : (1 <<< b) = 2 ^ b := by
  rw [Nat.shiftLeft_eq, one_mul]

lemma two_pow_mod_256 (b : Nat) (hb : b < 8) : 2 ^ b % 2 ^ 8 = 2 ^ b :=
  Nat.mod_eq_of_lt (Nat.pow_lt_pow_right one_lt_two hb)

lemma assign_bit_zero (P b : Nat) :
    assign_bit P b 0 = P &&& (2 ^ 8 - 1 ^^^ 2 ^ b % 2 ^ 8) := by
  simp only [assign_bit, one_shiftLeft_eq, ne_eq, not_true_eq_false,
    if_false]

lemma assign_bit_one (P b : Nat) :
    assign_bit P b 1 = (P ||| 2 ^ b % 2 ^ 8) % 2 ^ 8 := by
  simp only [assign_bit, one_shiftLeft_eq, ne_eq, one_ne_zero,
    not_false_eq_true, if_true]

lemma assign_bit_lt (P b v : Nat) : assign_bit P b v < 2 ^ 8 := by
  unfold assign_bit
  split
  · exact Nat.mod_lt _ (by norm_num)
  · calc P &&& (2 ^ 8 - 1 ^^^ (1 <<< b) % 2 ^ 8) ≤ _ := Nat.and_le_right
      _ < 2 ^ 8 := Nat.xor_lt_two_pow (by norm_num) (Nat.mod_lt _ (by norm_num))

lemma assign_bit_testBit_self (P b v : Nat) (hb : b < 8) (hv : v ≤ 1) :
    (assign_bit P b v).testBit b = decide (v ≠ 0) := by
  interval_cases v
  · rw [assign_bit_zero, two_pow_mod_256 b hb, Nat.testBit_and,
      Nat.testBit_xor, Nat.testBit_two_pow_sub_one, Nat.testBit_two_pow]
    simp [hb]
  · rw [assign_bit_one, two_pow_mod_256 b hb, Nat.testBit_mod_two_pow,
      Nat.testBit_or, Nat.testBit_two_pow]
    simp [hb]

lemma assign_bit_testBit_ne (P b v c : Nat) (hb : b < 8) (hc : c < 8)
    (hv : v ≤ 1) (hne : c ≠ b) :
    (assign_bit P b v).testBit c = P.testBit c := by
  interval_cases v
  · rw [assign_bit_zero, two_pow_mod_256 b hb, Nat.testBit_and,
      Nat.testBit_xor, Nat.testBit_two_pow_sub_one, Nat.testBit_two_pow]
    simp [hc, Ne.symm hne]
  · rw [assign_bit_one, two_pow_mod_256 b hb, Nat.testBit_mod_two_pow,
      Nat.testBit_or, Nat.testBit_two_pow]
    simp [hc, Ne.symm hne]

lemma heaterCase0_opMode (s : HCU) : (heaterCase0 s).opMode = s.opMode := by
  unfold heaterCase0
  repeat' split
  all_goals rfl

lemma heaterCase1_opMode (s : HCU) : (heaterCase1 s).opMode = s.opMode := by
  unfold heaterCase1
  repeat' split
  all_goals rfl

lemma heaterCase2_opMode (s : HCU) : (heaterCase2 s).opMode = s.opMode := by
  unfold heaterCase2
  repeat' split
  all_goals rfl

lemma heaterCase3_opMode (s : HCU) : (heaterCase3 s).opMode = s.opMode := by
  unfold heaterCase3
  repeat' split
  all_goals rfl

lemma heaterCase4_opMode (s : HCU) : (heaterCase4 s).opMode = s.opMode := by
  unfold heaterCase4
  repeat' split
  all_goals rfl

lemma heaterCase5_opMode (s : HCU) : (heaterCase5 s).opMode = s.opMode := by
  unfold heaterCase5
  repeat' split
  all_goals rfl

lemma heaterScan_opMode (s : HCU) : (heaterScan s).opMode = s.opMode := by
  unfold heaterScan
  rw [heaterCase5_opMode, heaterCase4_opMode, heaterCase3_opMode,
    heaterCase2_opMode, heaterCase1_opMode, heaterCase0_opMode]

lemma change_timers_opMode (s : HCU) : (change_timers s).opMode = 1 := rfl

lemma change_timers_desired_temp (s : HCU) :
    (change_timers s).desired_temp = s.desired_temp := rfl

lemma change_timers_pump_count (s : HCU) :
    (change_timers s).pump_count = 39 := rfl

lemma change_timers_pump_lock (s : HCU) :
    (change_timers s).pump_lock = 5 := rfl

lemma change_timers_OCR1B (s : HCU) :
    (change_timers s).OCR1B = 1000 - (truncQ ((1000 : ℚ) * s.duty_cycle)).toNat := rfl

lemma heaterCase0_desired_mono (s : HCU) (i : Nat)
    (h : s.desired_temp.testBit i = true) :
    (heaterCase0 s).desired_temp.testBit i = true := by
  unfold heaterCase0
  repeat' split
  all_goals simp [Nat.testBit_or, h]

lemma heaterCase1_desired_mono (s : HCU) (i : Nat)
    (h : s.desired_temp.testBit i = true) :
    (heaterCase1 s).desired_temp.testBit i = true := by
  unfold heaterCase1
  repeat' split
  all_goals simp [Nat.testBit_or, h]

lemma heaterCase2_desired_mono (s : HCU) (i : Nat)
    (h : s.desired_temp.testBit i = true) :
    (heaterCase2 s).desired_temp.testBit i = true := by
  unfold heaterCase2
  repeat' split
  all_goals simp [Nat.testBit_or, h]

lemma heaterCase3_desired_mono (s : HCU) (i : Nat)
    (h : s.desired_temp.testBit i = true) :
    (heaterCase3 s).desired_temp.testBit i = true := by
  unfold heaterCase3
  repeat' split
  all_goals simp [Nat.testBit_or, h]

lemma heaterCase4_desired_mono (s : HCU) (i : Nat)
    (h : s.desired_temp.testBit i = true) :
    (heaterCase4 s).desired_temp.testBit i = true := by
  unfold heaterCase4
  repeat' split
  all_goals simp [Nat.testBit_or, h]

lemma heaterCase5_desired_mono (s : HCU) (i : Nat)
    (h : s.desired_temp.testBit i = true) :
    (heaterCase5 s).desired_temp.testBit i = true := by
  unfold heaterCase5
  repeat' split
  all_goals simp [Nat.testBit_or, h]

lemma heaterScan_desired_mono (s : HCU) (i : Nat)
    (h : s.desired_temp.testBit i = true) :
    (heaterScan s).desired_temp.testBit i = true := by
  unfold heaterScan
  exact heaterCase5_desired_mono _ _ (heaterCase4_desired_mono _ _
    (heaterCase3_desired_mono _ _ (heaterCase2_desired_mono _ _
      (heaterCase1_desired_mono _ _ (heaterCase0_desired_mono _ _ h)))))

lemma tempHeaterHelper_desired_mono (s : HCU) (i : Nat)
    (h : s.desired_temp.testBit i = true) :
    (tempHeaterHelper s).desired_temp.testBit i = true := by
  unfold tempHeaterHelper
  have hs := heaterScan_desired_mono s i h
  by_cases h63 : (heaterScan s).desired_temp = 63
  · by_cases h0 : (heaterScan s).opMode = 0
    · rw [if_pos h63, if_pos h0, change_timers_desired_temp]
      exact hs
    · rw [if_pos h63, if_neg h0]
      exact hs
  · rw [if_neg h63]
    exact hs

lemma flowMeter_pump_count (n : Nat) (s : HCU) :
    (flowMeter n s).pump_count = (s.pump_count + 255) % 2 ^ 8 := by
  simp only [flowMeter]
  repeat' split
  all_goals rfl

lemma flowMeter_lock_branch (n : Nat) (s : HCU) (h : s.pump_lock ≠ 0) :
    (flowMeter n s).opMode = s.opMode ∧
    (flowMeter n s).OCR1B = s.OCR1B ∧
    (flowMeter n s).pump_lock = s.pump_lock - 1 ∧
    (flowMeter n s).PORTD = s.PORTD ∧
    (flowMeter n s).desired_temp = s.desired_temp := by
  unfold flowMeter
  rw [if_pos h]
  exact ⟨rfl, rfl, rfl, rfl, rfl⟩

lemma flowMeter_exhaust_branch (n : Nat) (s : HCU) (h : s.pump_lock = 0)
    (h2 : (s.pump_count + 255) % 2 ^ 8 = 0) :
    (flowMeter n s).opMode = 2 ∧
    (flowMeter n s).PORTD = assign_bit (assign_bit (assign_bit (assign_bit
      (assign_bit (assign_bit (assign_bit (assign_bit s.PORTD 4 0)
        Fuel_LED 1) Alive_LED 1) 0 0) 1 0) 2 0) 3 0) 7 0 ∧
    (flowMeter n s).PORTB = assign_bit s.PORTB 3 0 ∧
    (flowMeter n s).TCCR1B = assign_bit (assign_bit (assign_bit s.TCCR1B
      CS10 0) WGM12 0) WGM13 0 ∧
    (flowMeter n s).TCCR1A = assign_bit (assign_bit s.TCCR1A COM1B1 0)
      COM1B0 0 ∧
    (flowMeter n s).TCCR2 = 0x06 ∧
    (flowMeter n s).OCR1B = s.OCR1B ∧
    (flowMeter n s).desired_temp = s.desired_temp := by
  unfold flowMeter
  rw [if_neg (by simp [h]), if_pos h2]
  exact ⟨rfl, rfl, rfl, rfl, rfl, rfl, rfl, rfl⟩

lemma flowMeter_adjust_branch (n : Nat) (s : HCU) (h : s.pump_lock = 0)
    (h2 : (s.pump_count + 255) % 2 ^ 8 ≠ 0) :
    (flowMeter n s).opMode = s.opMode ∧
    (flowMeter n s).OCR1B =
      (((s.OCR1B : Int) - truncQ (changeOf s n / 3)) % 65536).toNat ∧
    (flowMeter n s).PORTD =
      (if peAbs s n ≤ (s.pulse_error_allow : Int) then
        (s.PORTD ||| 1 <<< Fuel_LED) % 2 ^ 8
      else (s.PORTD ^^^ 1 <<< Fuel_LED) % 2 ^ 8) ∧
    (flowMeter n s).pump_lock = s.pump_lock ∧
    (flowMeter n s).desired_temp = s.desired_temp := by
  unfold flowMeter
  rw [if_neg (by simp [h]), if_neg h2]
  by_cases hpe : peAbs s n ≤ (s.pulse_error_allow : Int)
  · rw [if_pos hpe, if_pos hpe]
    exact ⟨rfl, rfl, rfl, rfl, rfl⟩
  · rw [if_neg hpe, if_neg hpe]
    exact ⟨rfl, rfl, rfl, rfl, rfl⟩

lemma flowMeter_opMode_or (n : Nat) (s : HCU) :
    (flowMeter n s).opMode = s.opMode ∨ (flowMeter n s).opMode = 2 := by
  by_cases hl : s.pump_lock ≠ 0
  · exact Or.inl (flowMeter_lock_branch n s hl).1
  · by_cases hc : (s.pump_count + 255) % 2 ^ 8 = 0
    · exact Or.inr (flowMeter_exhaust_branch n s (by omega) hc).1
    · exact Or.inl (flowMeter_adjust_branch n s (by omega) hc).1

lemma flowMeter_desired_temp (n : Nat) (s : HCU) :
    (flowMeter n s).desired_temp = s.desired_temp := by
  by_cases hl : s.pump_lock ≠ 0
  · exact (flowMeter_lock_branch n s hl).2.2.2.2
  · by_cases hc : (s.pump_count + 255) % 2 ^ 8 = 0
    · exact (flowMeter_exhaust_branch n s (by omega) hc).2.2.2.2.2.2.2
    · exact (flowMeter_adjust_branch n s (by omega) hc).2.2.2.2

lemma tempHeaterHelper_opMode_of_ne (s : HCU) (h : s.opMode ≠ 0) :
    (tempHeaterHelper s).opMode = s.opMode := by
  unfold tempHeaterHelper
  have hs := heaterScan_opMode s
  by_cases h63 : (heaterScan s).desired_temp = 63
  · rw [if_pos h63, if_neg (by rw [hs]; exact h), hs]
  · rw [if_neg h63, hs]

lemma tempHeaterHelper_fires_iff (s : HCU) (h : s.opMode = 0) :
    (tempHeaterHelper s).opMode ≠ 0 ↔ (heaterScan s).desired_temp = 63 := by
  unfold tempHeaterHelper
  have hs := heaterScan_opMode s
  by_cases h63 : (heaterScan s).desired_temp = 63
  · rw [if_pos h63, if_pos (by rw [hs]; exact h)]
    simp [change_timers_opMode, h63]
  · rw [if_neg h63, hs, h]
    simp [h63]

lemma mainFlow_opMode_or (p : Nat) (s : HCU) :
    (mainFlow p s).opMode = s.opMode ∨ (mainFlow p s).opMode = 2 := by
  unfold mainFlow
  split
  · exact flowMeter_opMode_or p s
  · exact Or.inl rfl

lemma mainPwm_opMode (s : HCU) : (mainPwm s).opMode = s.opMode := rfl

lemma mainPwm_desired_temp (s : HCU) :
    (mainPwm s).desired_temp = s.desired_temp := rfl

lemma tempConversion_opMode_of_ne (t : Fin 6 → ℚ) (s : HCU)
    (h : s.opMode ≠ 0) : (tempConversion t s).opMode = s.opMode :=
  tempHeaterHelper_opMode_of_ne { s with saveTemps := t } h

lemma mainStep_opMode_persist (t : Fin 6 → ℚ) (p : Nat) (s : HCU)
    (h : s.opMode ≠ 0) : (mainStep t p s).opMode ≠ 0 := by
  unfold mainStep
  rw [mainPwm_opMode]
  have hmc : (mainCount s).opMode ≠ 0 := h
  have htc : (tempConversion t (mainCount s)).opMode ≠ 0 := by
    rw [tempConversion_opMode_of_ne t _ hmc]
    exact hmc
  rcases mainFlow_opMode_or p (tempConversion t (mainCount s)) with h2 | h2
  · rw [h2]
    exact htc
  · rw [h2]
    omega

lemma runTrace_nil (s : HCU) : runTrace [] s = s := rfl

lemma runTrace_cons (a : (Fin 6 → ℚ) × Nat) (rest : List ((Fin 6 → ℚ) × Nat))
    (s : HCU) : runTrace (a :: rest) s = runTrace rest (mainStep a.1 a.2 s) := rfl

lemma countTransitions_zero (steps : List ((Fin 6 → ℚ) × Nat)) (s : HCU)
    (h : s.opMode ≠ 0) : countTransitions steps s = 0 := by
  induction steps generalizing s with
  | nil => rfl
  | cons a rest ih =>
    simp only [countTransitions]
    rw [if_neg (fun hc => h hc.1), zero_add]
    exact ih _ (mainStep_opMode_persist _ _ _ h)

lemma countTransitions_le_one (steps : List ((Fin 6 → ℚ) × Nat)) (s : HCU) :
    countTransitions steps s ≤ 1 := by
  induction steps generalizing s with
  | nil => simp [countTransitions]
  | cons a rest ih =>
    simp only [countTransitions]
    by_cases hc : s.opMode = 0 ∧ (mainStep a.1 a.2 s).opMode ≠ 0
    · rw [if_pos hc, countTransitions_zero rest _ hc.2]
    · rw [if_neg hc, zero_add]
      exact ih _

lemma mainStep_desired_mono (t : Fin 6 → ℚ) (p : Nat) (s : HCU) (i : Nat)
    (h : s.desired_temp.testBit i = true) :
    (mainStep t p s).desired_temp.testBit i = true := by
  unfold mainStep
  rw [mainPwm_desired_temp]
  unfold mainFlow
  split
  · rw [flowMeter_desired_temp]
    exact tempHeaterHelper_desired_mono _ _ h
  · exact tempHeaterHelper_desired_mono _ _ h

lemma runTrace_desired_mono (steps : List ((Fin 6 → ℚ) × Nat)) (s : HCU)
    (i : Nat) (h : s.desired_temp.testBit i = true) :
    (runTrace steps s).desired_temp.testBit i = true := by
  induction steps generalizing s with
  | nil => exact h
  | cons a rest ih =>
    rw [runTrace_cons]
    exact ih _ (mainStep_desired_mono _ _ _ _ h)

lemma trip_step (s : HCU) : trip (timer2_ovf s) = tripStep (trip s) := by
  have hset := assign_bit_testBit_self s.PORTD Alive_LED 1 (by decide)
    (by decide)
  have hclr := assign_bit_testBit_self s.PORTD Alive_LED 0 (by decide)
    (by decide)
  simp only [trip, tripStep, timer2_ovf, aliveOn]
  by_cases h1 : s.opMode = 1 <;> by_cases h2 : s.alive_counter = 2 <;>
    by_cases h3 : s.alive_counter = 3 <;>
    by_cases h4 : s.alive_counter = 1 <;>
    by_cases h5 : s.alive_counter = 19 <;>
    simp [h1, h2, h3, h4, h5, hset, hclr]

lemma ledOnCount_eq_tripCount (n : Nat) (s : HCU) :
    ledOnCount timer2_ovf aliveOn s n = tripCount (trip s) n := by
  induction n generalizing s with
  | zero => rfl
  | succ k ih =>
    show (if aliveOn s then 1 else 0) + ledOnCount timer2_ovf aliveOn
      (timer2_ovf s) k = (if (trip s).2.2 then 1 else 0) +
      tripCount (tripStep (trip s)) k
    rw [ih, trip_step]
    rfl

lemma tripCount_add (a b : Nat) (t : Nat × Nat × Bool) :
    tripCount t (a + b) = tripCount t a + tripCount (tripStep^[a] t) b := by
  induction a generalizing t with
  | zero => simp [tripCount]
  | succ k ih =>
    have h1 : k + 1 + b = (k + b) + 1 := by omega
    rw [h1]
    show (if t.2.2 then 1 else 0) + tripCount (tripStep t) (k + b) = _
    rw [ih]
    show _ = (if t.2.2 then 1 else 0) + tripCount (tripStep t) k +
      tripCount (tripStep^[k + 1] t) b
    rw [Function.iterate_succ_apply]
    omega

lemma tripCount_pump_cycle (k : Nat) :
    tripCount (1, 0, true) (4 * k) = 3 * k := by
  induction k with
  | zero => rfl
  | succ m ih =>
    have h1 : 4 * (m + 1) = 4 + 4 * m := by omega
    rw [h1, tripCount_add]
    have h2 : tripStep^[4] ((1, 0, true) : Nat × Nat × Bool) = (1, 0, true) := by
      decide
    have h3 : tripCount (1, 0, true) 4 = 3 := by decide
    rw [h2, h3, ih]
    omega

lemma tripCount_exhaust_cycle (k : Nat) :
    tripCount (2, 0, true) (20 * k) = 2 * k := by
  induction k with
  | zero => rfl
  | succ m ih =>
    have h1 : 20 * (m + 1) = 20 + 20 * m := by omega
    rw [h1, tripCount_add]
    have h2 : tripStep^[20] ((2, 0, true) : Nat × Nat × Bool) = (2, 0, true) := by
      decide
    have h3 : tripCount (2, 0, true) 20 = 2 := by decide
    rw [h2, h3, ih]
    omega

lemma xor_toggle_testBit (P b : Nat) (hb : b < 8) :
    ((P ^^^ 1 <<< b) % 2 ^ 8).testBit b = !(P.testBit b) := by
  rw [one_shiftLeft_eq, Nat.testBit_mod_two_pow, Nat.testBit_xor,
    Nat.testBit_two_pow]
  simp [hb]

lemma warmOn_timer1_flip (s : HCU) : warmOn (timer1_ovf s) = !(warmOn s) := by
  simp only [timer1_ovf, warmOn]
  split
  · exact xor_toggle_testBit s.PORTB Warm_LED (by decide)
  · exact xor_toggle_testBit s.PORTB Warm_LED (by decide)

lemma ledOnCount_timer1_two (s : HCU) :
    ledOnCount timer1_ovf warmOn s 2 = 1 := by
  show (if warmOn s then 1 else 0) + ((if warmOn (timer1_ovf s) then 1
    else 0) + 0) = 1
  rw [warmOn_timer1_flip]
  by_cases h : warmOn s <;> simp [h]

lemma ledOnCount_add (f : HCU → HCU) (obs : HCU → Bool) (a b : Nat)
    (s : HCU) : ledOnCount f obs s (a + b) =
      ledOnCount f obs s a + ledOnCount f obs (f^[a] s) b := by
  induction a generalizing s with
  | zero => simp [ledOnCount]
  | succ k ih =>
    have h1 : k + 1 + b = (k + b) + 1 := by omega
    rw [h1]
    show (if obs s then 1 else 0) + ledOnCount f obs (f s) (k + b) = _
    rw [ih]
    show _ = (if obs s then 1 else 0) + ledOnCount f obs (f s) k +
      ledOnCount f obs (f^[k + 1] s) b
    rw [Function.iterate_succ_apply]
    omega

lemma ledOnCount_timer1 (s : HCU) (k : Nat) :
    ledOnCount timer1_ovf warmOn s (2 * k) = k := by
  induction k generalizing s with
  | zero => rfl
  | succ m ih =>
    have h1 : 2 * (m + 1) = 2 + 2 * m := by omega
    rw [h1, ledOnCount_add, ledOnCount_timer1_two, ih]
    omega

lemma applyWindows_nil (s : HCU) : applyWindows [] s = s := rfl

lemma applyWindows_cons (n : Nat) (ns : List Nat) (s : HCU) :
    applyWindows (n :: ns) s = applyWindows ns (flowMeter n s) := rfl

lemma applyWindows_lock_OCR1B (ns : List Nat) (s : HCU)
    (h : ns.length ≤ s.pump_lock) : (applyWindows ns s).OCR1B = s.OCR1B := by
  induction ns generalizing s with
  | nil => rfl
  | cons n rest ih =>
    rw [applyWindows_cons]
    have hl : s.pump_lock ≠ 0 := by
      simp only [List.length_cons] at h
      omega
    obtain ⟨-, hO, hk, -, -⟩ := flowMeter_lock_branch n s hl
    rw [ih _ (by simp only [List.length_cons] at h; omega : rest.length ≤
      (flowMeter n s).pump_lock), hO]

lemma applyWindows_exhaust (ns : List Nat) (s : HCU)
    (h1 : s.pump_lock < s.pump_count) (h2 : s.pump_count ≤ 255)
    (h3 : ns.length = s.pump_count) : (applyWindows ns s).opMode = 2 := by
  induction ns generalizing s with
  | nil =>
    simp only [List.length_nil] at h3
    omega
  | cons n rest ih =>
    rw [applyWindows_cons]
    have hc1 : 1 ≤ s.pump_count := by omega
    have hpc : (flowMeter n s).pump_count = s.pump_count - 1 := by
      rw [flowMeter_pump_count]
      omega
    simp only [List.length_cons] at h3
    by_cases hl : s.pump_lock ≠ 0
    · obtain ⟨-, -, hk, -, -⟩ := flowMeter_lock_branch n s hl
      exact ih _ (by omega) (by omega) (by omega)
    · have hl0 : s.pump_lock = 0 := by omega
      by_cases hz : (s.pump_count + 255) % 2 ^ 8 = 0
      · have hc : s.pump_count = 1 := by omega
        have hrest : rest = [] := List.length_eq_zero.mp (by omega)
        rw [hrest, applyWindows_nil]
        exact (flowMeter_exhaust_branch n s hl0 hz).1
      · obtain ⟨hm, -, -, hk, -⟩ := flowMeter_adjust_branch n s hl0 hz
        have hcge : 2 ≤ s.pump_count := by omega
        exact ih _ (by omega) (by omega) (by omega)

lemma heaterCase1_PORTD_bit (s : HCU) (c : Nat) (hc : c < 8) (h : c ≠ 1) :
    (heaterCase1 s).PORTD.testBit c = s.PORTD.testBit c := by
  unfold heaterCase1
  repeat' split
  all_goals first
    | rfl
    | exact assign_bit_testBit_ne s.PORTD HopperPin 1 c (by decide) hc
        (by decide) h
    | exact assign_bit_testBit_ne s.PORTD HopperPin 0 c (by decide) hc
        (by decide) h

lemma heaterCase2_PORTD (s : HCU) : (heaterCase2 s).PORTD = s.PORTD := by
  unfold heaterCase2
  repeat' split
  all_goals rfl

lemma heaterCase3_PORTD_bit (s : HCU) (c : Nat) (hc : c < 8) (h : c ≠ 2) :
    (heaterCase3 s).PORTD.testBit c = s.PORTD.testBit c := by
  unfold heaterCase3
  repeat' split
  all_goals first
    | rfl
    | exact assign_bit_testBit_ne s.PORTD FLine1Pin 1 c (by decide) hc
        (by decide) h
    | exact assign_bit_testBit_ne s.PORTD FLine1Pin 0 c (by decide) hc
        (by decide) h

lemma heaterCase4_PORTD_bit (s : HCU) (c : Nat) (hc : c < 8) (h : c ≠ 7) :
    (heaterCase4 s).PORTD.testBit c = s.PORTD.testBit c := by
  unfold heaterCase4
  repeat' split
  all_goals first
    | rfl
    | exact assign_bit_testBit_ne s.PORTD Fline2Pin 1 c (by decide) hc
        (by decide) h
    | exact assign_bit_testBit_ne s.PORTD Fline2Pin 0 c (by decide) hc
        (by decide) h

lemma heaterCase5_PORTD_bit (s : HCU) (c : Nat) (hc : c < 8) (h : c ≠ 3) :
    (heaterCase5 s).PORTD.testBit c = s.PORTD.testBit c := by
  unfold heaterCase5
  repeat' split
  all_goals first
    | rfl
    | exact assign_bit_testBit_ne s.PORTD ESB_Pin 1 c (by decide) hc
        (by decide) h
    | exact assign_bit_testBit_ne s.PORTD ESB_Pin 0 c (by decide) hc
        (by decide) h

lemma change_timers_PORTD_bit (s : HCU) (c : Nat) (hc : c < 8) (h : c ≠ 5) :
    (change_timers s).PORTD.testBit c = s.PORTD.testBit c := by
  have heq : (change_timers s).PORTD = assign_bit s.PORTD Alive_LED 1 := rfl
  rw [heq]
  exact assign_bit_testBit_ne s.PORTD Alive_LED 1 c (by decide) hc
    (by decide) h

lemma tempHeaterHelper_bat_off (s : HCU) (h : s.saveTemps 0 > TempBat) :
    (tempHeaterHelper s).PORTD.testBit BatPin = false := by
  show (tempHeaterHelper s).PORTD.testBit 0 = false
  have h0 : (heaterCase0 s).PORTD.testBit 0 = false := by
    unfold heaterCase0
    rw [if_pos h]
    have hb := assign_bit_testBit_self s.PORTD BatPin 0 (by decide) (by decide)
    exact hb.trans rfl
  have h5 : (heaterScan s).PORTD.testBit 0 = false := by
    unfold heaterScan
    rw [heaterCase5_PORTD_bit _ 0 (by decide) (by decide),
      heaterCase4_PORTD_bit _ 0 (by decide) (by decide),
      heaterCase3_PORTD_bit _ 0 (by decide) (by decide),
      heaterCase2_PORTD,
      heaterCase1_PORTD_bit _ 0 (by decide) (by decide)]
    exact h0
  unfold tempHeaterHelper
  by_cases h63 : (heaterScan s).desired_temp = 63
  · by_cases hm : (heaterScan s).opMode = 0
    · rw [if_pos h63, if_pos hm,
        change_timers_PORTD_bit _ 0 (by decide) (by decide)]
      exact h5
    · rw [if_pos h63, if_neg hm]
      exact h5
  · rw [if_neg h63]
    exact h5

lemma truncQ_nonneg (q : ℚ) (h : 0 ≤ q) : 0 ≤ truncQ q := by
  unfold truncQ
  rw [if_neg (not_lt.mpr h)]
  exact Int.floor_nonneg.mpr h

lemma truncQ_nonpos (q : ℚ) (h : q ≤ 0) : truncQ q ≤ 0 := by
  unfold truncQ
  split
  · simp only [neg_nonpos]
    exact Int.floor_nonneg.mpr (by linarith)
  · exact Int.floor_nonpos h

lemma changeOf_nonneg (s : HCU) (n : Nat) (hV : 0 ≤ s.V_per_pulse)
    (he : 0 ≤ pulseErrorOf s n) : 0 ≤ changeOf s n := by
  unfold changeOf
  have h1 : (0 : ℚ) ≤ (pulseErrorOf s n : ℚ) := by exact_mod_cast he
  have h2 : (0 : ℚ) < pump_tot_V := by norm_num [pump_tot_V]
  positivity

lemma changeOf_nonpos (s : HCU) (n : Nat) (hV : 0 ≤ s.V_per_pulse)
    (he : pulseErrorOf s n ≤ 0) : changeOf s n ≤ 0 := by
  unfold changeOf
  have h1 : (pulseErrorOf s n : ℚ) ≤ 0 := by exact_mod_cast he
  have h2 : (0 : ℚ) < pump_tot_V := by norm_num [pump_tot_V]
  have h3 : (pulseErrorOf s n : ℚ) * s.V_per_pulse * (s.ICR1 : ℚ) ≤ 0 := by
    apply mul_nonpos_of_nonpos_of_nonneg
    · exact mul_nonpos_of_nonpos_of_nonneg h1 hV
    · positivity
  exact div_nonpos_of_nonpos_of_nonneg h3 (le_of_lt h2)

lemma or_set_testBit (P b : Nat) (hb : b < 8) :
    ((P ||| 1 <<< b) % 2 ^ 8).testBit b = true := by
  rw [one_shiftLeft_eq, Nat.testBit_mod_two_pow, Nat.testBit_or,
    Nat.testBit_two_pow]
  simp [hb]

lemma peAbs_141_spec : ∀ m : Nat, m < 256 →
    ((if wrap8 (141 - (m : Int)) < 0 then wrap8 (-wrap8 (141 - (m : Int)))
      else wrap8 (141 - (m : Int))) ≤ (3 : Int) ↔
      (m = 13 ∨ (138 ≤ m ∧ m ≤ 144))) := by decide

lemma exhaustPD_testBit (P : Nat) :
    (assign_bit (assign_bit (assign_bit (assign_bit (assign_bit (assign_bit
      (assign_bit (assign_bit P 4 0) Fuel_LED 1) Alive_LED 1) 0 0) 1 0) 2 0)
      3 0) 7 0).testBit 0 = false ∧
    (assign_bit (assign_bit (assign_bit (assign_bit (assign_bit (assign_bit
      (assign_bit (assign_bit P 4 0) Fuel_LED 1) Alive_LED 1) 0 0) 1 0) 2 0)
      3 0) 7 0).testBit 1 = false ∧
    (assign_bit (assign_bit (assign_bit (assign_bit (assign_bit (assign_bit
      (assign_bit (assign_bit P 4 0) Fuel_LED 1) Alive_LED 1) 0 0) 1 0) 2 0)
      3 0) 7 0).testBit 2 = false ∧
    (assign_bit (assign_bit (assign_bit (assign_bit (assign_bit (assign_bit
      (assign_bit (assign_bit P 4 0) Fuel_LED 1) Alive_LED 1) 0 0) 1 0) 2 0)
      3 0) 7 0).testBit 3 = false ∧
    (assign_bit (assign_bit (assign_bit (assign_bit (assign_bit (assign_bit
      (assign_bit (assign_bit P 4 0) Fuel_LED 1) Alive_LED 1) 0 0) 1 0) 2 0)
      3 0) 7 0).testBit 7 = false ∧
    (assign_bit (assign_bit (assign_bit (assign_bit (assign_bit (assign_bit
      (assign_bit (assign_bit P 4 0) Fuel_LED 1) Alive_LED 1) 0 0) 1 0) 2 0)
      3 0) 7 0).testBit 4 = false ∧
    (assign_bit (assign_bit (assign_bit (assign_bit (assign_bit (assign_bit
      (assign_bit (assign_bit P 4 0) Fuel_LED 1) Alive_LED 1) 0 0) 1 0) 2 0)
      3 0) 7 0).testBit Fuel_LED = true := by
  refine ⟨?_, ?_, ?_, ?_, ?_, ?_, ?_⟩
  · rw [assign_bit_testBit_ne _ 7 0 0 (by decide) (by decide) (by decide) (by decide)]
    rw [assign_bit_testBit_ne _ 3 0 0 (by decide) (by decide) (by decide) (by decide)]
    rw [assign_bit_testBit_ne _ 2 0 0 (by decide) (by decide) (by decide) (by decide)]
    rw [assign_bit_testBit_ne _ 1 0 0 (by decide) (by decide) (by decide) (by decide)]
    rw [assign_bit_testBit_self _ 0 0 (by decide) (by decide)]
    rfl
  · rw [assign_bit_testBit_ne _ 7 0 1 (by decide) (by decide) (by decide) (by decide)]
    rw [assign_bit_testBit_ne _ 3 0 1 (by decide) (by decide) (by decide) (by decide)]
    rw [assign_bit_testBit_ne _ 2 0 1 (by decide) (by decide) (by decide) (by decide)]
    rw [assign_bit_testBit_self _ 1 0 (by decide) (by decide)]
    rfl
  · rw [assign_bit_testBit_ne _ 7 0 2 (by decide) (by decide) (by decide) (by decide)]
    rw [assign_bit_testBit_ne _ 3 0 2 (by decide) (by decide) (by decide) (by decide)]
    rw [assign_bit_testBit_self _ 2 0 (by decide) (by decide)]
    rfl
  · rw [assign_bit_testBit_ne _ 7 0 3 (by decide) (by decide) (by decide) (by decide)]
    rw [assign_bit_testBit_self _ 3 0 (by decide) (by decide)]
    rfl
  · rw [assign_bit_testBit_self _ 7 0 (by decide) (by decide)]
    rfl
  · rw [assign_bit_testBit_ne _ 7 0 4 (by decide) (by decide) (by decide) (by decide)]
    rw [assign_bit_testBit_ne _ 3 0 4 (by decide) (by decide) (by decide) (by decide)]
    rw [assign_bit_testBit_ne _ 2 0 4 (by decide) (by decide) (by decide) (by decide)]
    rw [assign_bit_testBit_ne _ 1 0 4 (by decide) (by decide) (by decide) (by decide)]
    rw [assign_bit_testBit_ne _ 0 0 4 (by decide) (by decide) (by decide) (by decide)]
    rw [assign_bit_testBit_ne _ Alive_LED 1 4 (by decide) (by decide) (by decide) (by decide)]
    rw [assign_bit_testBit_ne _ Fuel_LED 1 4 (by decide) (by decide) (by decide) (by decide)]
    rw [assign_bit_testBit_self _ 4 0 (by decide) (by decide)]
    rfl
  · rw [assign_bit_testBit_ne _ 7 0 Fuel_LED (by decide) (by decide) (by decide) (by decide)]
    rw [assign_bit_testBit_ne _ 3 0 Fuel_LED (by decide) (by decide) (by decide) (by decide)]
    rw [assign_bit_testBit_ne _ 2 0 Fuel_LED (by decide) (by decide) (by decide) (by decide)]
    rw [assign_bit_testBit_ne _ 1 0 Fuel_LED (by decide) (by decide) (by decide) (by decide)]
    rw [assign_bit_testBit_ne _ 0 0 Fuel_LED (by decide) (by decide) (by decide) (by decide)]
    rw [assign_bit_testBit_ne _ Alive_LED 1 Fuel_LED (by decide) (by decide) (by decide) (by decide)]
    rw [assign_bit_testBit_self _ Fuel_LED 1 (by decide) (by decide)]
    rfl

lemma pwmOff_TCCR1B_testBit (X : Nat) :
    (assign_bit (assign_bit (assign_bit X CS10 0) WGM12 0) WGM13 0).testBit
      CS10 = false ∧
    (assign_bit (assign_bit (assign_bit X CS10 0) WGM12 0) WGM13 0).testBit
      WGM12 = false ∧
    (assign_bit (assign_bit (assign_bit X CS10 0) WGM12 0) WGM13 0).testBit
      WGM13 = false := by
  refine ⟨?_, ?_, ?_⟩
  · rw [assign_bit_testBit_ne _ WGM13 0 CS10 (by decide) (by decide)
      (by decide) (by decide)]
    rw [assign_bit_testBit_ne _ WGM12 0 CS10 (by decide) (by decide)
      (by decide) (by decide)]
    rw [assign_bit_testBit_self _ CS10 0 (by decide) (by decide)]
    rfl
  · rw [assign_bit_testBit_ne _ WGM13 0 WGM12 (by decide) (by decide)
      (by decide) (by decide)]
    rw [assign_bit_testBit_self _ WGM12 0 (by decide) (by decide)]
    rfl
  · rw [assign_bit_testBit_self _ WGM13 0 (by decide) (by decide)]
    rfl

lemma pwmOff_TCCR1A_testBit (X : Nat) :
    (assign_bit (assign_bit X COM1B1 0) COM1B0 0).testBit COM1B1 = false ∧
    (assign_bit (assign_bit X COM1B1 0) COM1B0 0).testBit COM1B0 = false := by
  constructor
  · rw [assign_bit_testBit_ne _ COM1B0 0 COM1B1 (by decide) (by decide)
      (by decide) (by decide)]
    rw [assign_bit_testBit_self _ COM1B1 0 (by decide) (by decide)]
    rfl
  · rw [assign_bit_testBit_self _ COM1B0 0 (by decide) (by decide)]
    rfl

lemma clear_bit3_testBit (X : Nat) :
    (assign_bit X 3 0).testBit 3 = false := by
  rw [assign_bit_testBit_self _ 3 0 (by decide) (by decide)]
  rfl

/-- A mid-run Pumping-mode window state: lock-out expired, 5 windows left,
duty threshold at its calibrated value. -/
def pumpingMidRun : HCU :=
  { zState with
    opMode := 1
    desired_pulses := 141
    pulse_error_allow := 3
    V_per_pulse := init_V_per_pulse
    ICR1 := 1000
    OCR1B := 450
    pump_lock := 0
    pump_count := 5 }

/-- A Pumping-mode state about to run its last window, with all heater
outputs commanded on. -/
def pumpingLastWindow : HCU :=
  { zState with
    opMode := 1
    desired_pulses := 141
    pulse_error_allow := 3
    V_per_pulse := init_V_per_pulse
    ICR1 := 1000
    OCR1B := 450
    pump_lock := 0
    pump_count := 1
    PORTD := 0b00001111
    PORTB := 0b00001000 }

/-- A mid-run Pumping-mode window state whose duty threshold is already
close to zero. -/
def pumpingMidRunLowDuty : HCU :=
  { zState with
    opMode := 1
    desired_pulses := 141
    pulse_error_allow := 3
    V_per_pulse := init_V_per_pulse
    ICR1 := 1000
    OCR1B := 5
    pump_lock := 0
    pump_count := 5 }

/-- C1 counterexample: in Pumping mode with the lock-out counter at zero and
5 windows remaining on the countdown, a flow window that observes exactly
zero pulses does NOT take the Pumping-to-Exhausted transition, refuting the
claimed if-and-only-if at that input. -/
theorem flowMeter_zero_pulses_not_exhaust_cex :
    ¬ (((flowMeter 0 pumpingMidRun).opMode = 2) ↔ (0 : Nat) % 2 ^ 8 = 0) := by
  decide

/-- C1 (amended): for every invocation of `flowMeter` while the mode is
Pumping and the lock-out counter has reached zero, the Pumping-to-Exhausted
transition (`opMode` set to 2) is taken if and only if the decremented
window countdown `pump_count` has reached zero — regardless of the pulse
count the window observed. -/
theorem flowMeter_exhaust_iff_countdown (s : HCU) (n : Nat)
    (hmode : s.opMode = 1) (hlock : s.pump_lock = 0) :
    (flowMeter n s).opMode = 2 ↔ (s.pump_count + 255) % 2 ^ 8 = 0 := by
  constructor
  · intro h
    by_contra hz
    obtain ⟨hm, -, -, -, -⟩ := flowMeter_adjust_branch n s hlock hz
    rw [hm, hmode] at h
    exact absurd h (by decide)
  · intro hz
    exact (flowMeter_exhaust_branch n s hlock hz).1

/-- Witness for C1 at a concrete last-window state. -/
theorem flowMeter_exhaust_iff_countdown_witness :
    (flowMeter 37 pumpingLastWindow).opMode = 2 :=
  (flowMeter_exhaust_iff_countdown pumpingLastWindow 37 rfl rfl).mpr
    (by decide)

/-- C2: the Heating-to-Pumping transition (`change_timers`) fires in a scan
pass if and only if that pass leaves the satisfied bitmask equal to 0x3F
while the mode is still Heating, and over any run of main-loop passes the
transition edge occurs at most once — re-checking on later passes never
fires it again. -/
theorem heating_to_pumping_fires_once :
    (∀ s : HCU, s.opMode = 0 →
      ((tempHeaterHelper s).opMode ≠ 0 ↔
        (heaterScan s).desired_temp = 0x3F)) ∧
    (∀ (steps : List ((Fin 6 → ℚ) × Nat)) (s : HCU),
      countTransitions steps s ≤ 1) :=
  ⟨fun s h => tempHeaterHelper_fires_iff s h,
   fun steps s => countTransitions_le_one steps s⟩

/-- Witness for C2: a scan pass whose six readings all exceed their
setpoints fires the transition. -/
theorem heating_to_pumping_fires_once_witness :
    (tempHeaterHelper { zState with
      saveTemps := fun _ => 2000
      duty_cycle := 55/100 }).opMode ≠ 0 :=
  (heating_to_pumping_fires_once.1 _ rfl).mpr (by decide)

/-- C3 counterexample: when the Pumping-to-Exhausted transition fires, the
battery heater output — commanded ON before the window — is driven OFF, not
frozen at its last commanded state. -/
theorem exhaust_heat_hold_cex :
    (flowMeter 50 pumpingLastWindow).PORTD.testBit BatPin ≠
      pumpingLastWindow.PORTD.testBit BatPin := by
  decide

/-- C3 (amended): when the Pumping-to-Exhausted transition fires, the pump
PWM is disabled (Timer1 clock and compare outputs cleared) and every heater
output is driven OFF — battery, hopper, fuel line 1, ESB, fuel line 2 and
the ECU heater pin are all cleared — while the fuel LED turns solid on and
Timer2 switches to the exhausted cadence. -/
theorem exhaust_disables_pump_and_heaters (s : HCU) (n : Nat)
    (hlock : s.pump_lock = 0) (hz : (s.pump_count + 255) % 2 ^ 8 = 0) :
    (flowMeter n s).opMode = 2 ∧
    (flowMeter n s).TCCR1B.testBit CS10 = false ∧
    (flowMeter n s).TCCR1B.testBit WGM12 = false ∧
    (flowMeter n s).TCCR1B.testBit WGM13 = false ∧
    (flowMeter n s).TCCR1A.testBit COM1B1 = false ∧
    (flowMeter n s).TCCR1A.testBit COM1B0 = false ∧
    (flowMeter n s).PORTD.testBit BatPin = false ∧
    (flowMeter n s).PORTD.testBit HopperPin = false ∧
    (flowMeter n s).PORTD.testBit FLine1Pin = false ∧
    (flowMeter n s).PORTD.testBit ESB_Pin = false ∧
    (flowMeter n s).PORTD.testBit Fline2Pin = false ∧
    (flowMeter n s).PORTD.testBit 4 = false ∧
    (flowMeter n s).PORTB.testBit ECU_pin = false ∧
    (flowMeter n s).PORTD.testBit Fuel_LED = true ∧
    (flowMeter n s).TCCR2 = 0x06 := by
  obtain ⟨h1, hPD, hPB, hB, hA, hT2, -, -⟩ :=
    flowMeter_exhaust_branch n s hlock hz
  refine ⟨h1, ?_, ?_, ?_, ?_, ?_, ?_, ?_, ?_, ?_, ?_, ?_, ?_, ?_, hT2⟩
  · rw [hB]
    exact (pwmOff_TCCR1B_testBit _).1
  · rw [hB]
    exact (pwmOff_TCCR1B_testBit _).2.1
  · rw [hB]
    exact (pwmOff_TCCR1B_testBit _).2.2
  · rw [hA]
    exact (pwmOff_TCCR1A_testBit _).1
  · rw [hA]
    exact (pwmOff_TCCR1A_testBit _).2
  · rw [hPD]
    exact (exhaustPD_testBit _).1
  · rw [hPD]
    exact (exhaustPD_testBit _).2.1
  · rw [hPD]
    exact (exhaustPD_testBit _).2.2.1
  · rw [hPD]
    exact (exhaustPD_testBit _).2.2.2.1
  · rw [hPD]
    exact (exhaustPD_testBit _).2.2.2.2.1
  · rw [hPD]
    exact (exhaustPD_testBit _).2.2.2.2.2.1
  · rw [hPB]
    exact clear_bit3_testBit _
  · rw [hPD]
    exact (exhaustPD_testBit _).2.2.2.2.2.2

/-- Witness for C3 at a concrete last-window state. -/
theorem exhaust_disables_pump_and_heaters_witness :
    (flowMeter 50 pumpingLastWindow).TCCR1B.testBit CS10 = false :=
  (exhaust_disables_pump_and_heaters pumpingLastWindow 50 rfl
    (by decide)).2.1

lemma truncQ_eq_floor (q : ℚ) (h : ¬ q < 0) : truncQ q = ⌊q⌋ := by
  unfold truncQ
  rw [if_neg h]

lemma init_V_per_pulse_nonneg : 0 ≤ init_V_per_pulse := by
  norm_num [init_V_per_pulse, pulse_flow, fuelFlow, density, K_factor,
    max_time, pump_m]

lemma truncQ_pulse_flow : truncQ pulse_flow = 141 := by
  rw [truncQ_eq_floor _ (by norm_num [pulse_flow, fuelFlow, density,
    K_factor, max_time])]
  rw [Int.floor_eq_iff]
  constructor <;> norm_num [pulse_flow, fuelFlow, density, K_factor,
    max_time]

lemma init_desired_pulses_eq : init_desired_pulses = 141 := by
  rw [init_desired_pulses, truncQ_pulse_flow]
  rfl

lemma init_pulse_error_allow_eq : init_pulse_error_allow = 3 := by
  rw [init_pulse_error_allow, init_desired_pulses_eq]
  rw [truncQ_eq_floor _ (by norm_num [fuelError, fuelFlow])]
  rw [show ⌊((141 : Nat) : ℚ) * (fuelError / fuelFlow)⌋ = 3 from ?_]
  · rfl
  · rw [Int.floor_eq_iff]
    constructor <;> norm_num [fuelError, fuelFlow]

lemma trunc_change_midrun : truncQ (changeOf pumpingMidRun 100 / 3) = 7 := by
  have hpe : pulseErrorOf pumpingMidRun 100 = 41 := by decide
  have hch : changeOf pumpingMidRun 100 =
      ((41 : Int) : ℚ) * init_V_per_pulse * ((1000 : Nat) : ℚ) /
        pump_tot_V := by
    unfold changeOf
    rw [hpe]
    rfl
  rw [hch]
  rw [truncQ_eq_floor _ (by norm_num [init_V_per_pulse, pulse_flow,
    fuelFlow, density, K_factor, max_time, pump_m, pump_tot_V])]
  rw [Int.floor_eq_iff]
  constructor <;> norm_num [init_V_per_pulse, pulse_flow, fuelFlow,
    density, K_factor, max_time, pump_m, pump_tot_V]

lemma trunc_change_lowduty :
    truncQ (changeOf pumpingMidRunLowDuty 100 / 3) = 7 := by
  have hpe : pulseErrorOf pumpingMidRunLowDuty 100 = 41 := by decide
  have hch : changeOf pumpingMidRunLowDuty 100 =
      ((41 : Int) : ℚ) * init_V_per_pulse * ((1000 : Nat) : ℚ) /
        pump_tot_V := by
    unfold changeOf
    rw [hpe]
    rfl
  rw [hch]
  rw [truncQ_eq_floor _ (by norm_num [init_V_per_pulse, pulse_flow,
    fuelFlow, density, K_factor, max_time, pump_m, pump_tot_V])]
  rw [Int.floor_eq_iff]
  constructor <;> norm_num [init_V_per_pulse, pulse_flow, fuelFlow,
    density, K_factor, max_time, pump_m, pump_tot_V]

lemma trunc_1000_duty : truncQ ((1000 : ℚ) * (55/100)) = 550 := by
  rw [truncQ_eq_floor _ (by norm_num)]
  rw [Int.floor_eq_iff]
  constructor <;> norm_num

/-- C4 counterexample: a post-lockout window with a nonzero pulse count (100
pulses observed, duty threshold at 5) drives `OCR1B` to 65534, far outside
[0, ICR1] — the update is not clamped to [0, period]. -/
theorem duty_threshold_no_clamp_cex :
    ¬ ((flowMeter 100 pumpingMidRunLowDuty).OCR1B ≤
      pumpingMidRunLowDuty.ICR1) := by
  obtain ⟨-, hO1, -, -, -⟩ :=
    flowMeter_adjust_branch 100 pumpingMidRunLowDuty rfl (by decide)
  rw [hO1, trunc_change_lowduty]
  decide

/-- C4 (amended): for every post-lockout flow window with a nonzero
countdown, `flowMeter` subtracts the truncated proportional term
`trunc((pulse_error * V_per_pulse * ICR1 / pump_tot_V) / 3)` from `OCR1B`
modulo 2^16, with no clamping.  The adjustment direction matches the sign
of the wrapped 8-bit pulse error: when it is nonnegative (observed below
desired, no wrap), the inverted duty threshold `OCR1B` does not increase —
commanded duty does not decrease — and when it is nonpositive `OCR1B` does
not decrease, in both cases barring modulo wraparound. -/
theorem duty_threshold_update_direction (s : HCU) (n : Nat)
    (hlock : s.pump_lock = 0) (hz : (s.pump_count + 255) % 2 ^ 8 ≠ 0)
    (hV : 0 ≤ s.V_per_pulse) (hO : s.OCR1B < 65536) :
    (flowMeter n s).OCR1B =
      (((s.OCR1B : Int) - truncQ (changeOf s n / 3)) % 65536).toNat ∧
    (0 ≤ pulseErrorOf s n → truncQ (changeOf s n / 3) ≤ (s.OCR1B : Int) →
      (flowMeter n s).OCR1B ≤ s.OCR1B) ∧
    (pulseErrorOf s n ≤ 0 →
      (s.OCR1B : Int) - truncQ (changeOf s n / 3) < 65536 →
      s.OCR1B ≤ (flowMeter n s).OCR1B) := by
  obtain ⟨-, hO1, -, -, -⟩ := flowMeter_adjust_branch n s hlock hz
  refine ⟨hO1, ?_, ?_⟩
  · intro he ht
    have hc : 0 ≤ changeOf s n / 3 :=
      div_nonneg (changeOf_nonneg s n hV he) (by norm_num)
    have ht0 : 0 ≤ truncQ (changeOf s n / 3) := truncQ_nonneg _ hc
    rw [hO1]
    omega
  · intro he hlt
    have hc : changeOf s n / 3 ≤ 0 :=
      div_nonpos_of_nonpos_of_nonneg (changeOf_nonpos s n hV he)
        (by norm_num)
    have ht0 : truncQ (changeOf s n / 3) ≤ 0 := truncQ_nonpos _ hc
    rw [hO1]
    omega

/-- Witness for C4: a window observing 100 pulses (below the desired 141)
does not increase the inverted duty threshold. -/
theorem duty_threshold_update_direction_witness :
    (flowMeter 100 pumpingMidRun).OCR1B ≤ pumpingMidRun.OCR1B :=
  (duty_threshold_update_direction pumpingMidRun 100 rfl (by decide)
    init_V_per_pulse_nonneg (by decide)).2.1 (by decide)
    (le_of_eq_of_le trunc_change_midrun (by decide))

/-- C5: for every channel evaluation pass, whenever the battery channel
reading exceeds its upper bound the battery heater output is commanded OFF
after the pass — with no hypothesis on the operating mode, on any other
channel, or on the heater's previous state: the cutoff is the first check
of the battery case and fires independently of the hysteresis branch. -/
theorem battery_cutoff_unconditional (s : HCU)
    (h : s.saveTemps 0 > TempBat) :
    (tempHeaterHelper s).PORTD.testBit BatPin = false :=
  tempHeaterHelper_bat_off s h

/-- Witness for C5: a battery reading of 50 degF forces the heater off even
in Exhausted mode with the heater previously on. -/
theorem battery_cutoff_unconditional_witness :
    (tempHeaterHelper { zState with
      saveTemps := fun i => if i = 0 then 50 else -100
      opMode := 2
      PORTD := 0b00000001 }).PORTD.testBit BatPin = false :=
  battery_cutoff_unconditional _ (by decide)

/-- C6 counterexample: the initialization does not compute
`desired_pulses = 170`; with the K factor of 91387 in the sources it
computes 141. -/
theorem desired_pulses_not_170_cex : init_desired_pulses ≠ 170 := by
  rw [init_desired_pulses_eq]
  decide

/-- C6 (amended): the initialization computes `desired_pulses = 141` and a
tolerance of `trunc(141 * 13/480) = 3` pulses, and for every post-lockout
flow window that does not hit the exhaustion countdown, the fuel LED is
held on exactly when the observed count lies in [138, 144] — or equals 13,
where the `int8_t` error 141 - 13 = 128 wraps to -128 and its absolute
value wraps back to -128, passing the tolerance test — and is toggled
(blinks) for every other count. -/
theorem flow_nominal_indicator :
    init_desired_pulses = 141 ∧ init_pulse_error_allow = 3 ∧
    ∀ (s : HCU) (n : Nat), s.desired_pulses = 141 →
      s.pulse_error_allow = 3 → s.pump_lock = 0 →
      (s.pump_count + 255) % 2 ^ 8 ≠ 0 →
      (flowMeter n s).PORTD.testBit Fuel_LED =
        (if n % 2 ^ 8 = 13 ∨ (138 ≤ n % 2 ^ 8 ∧ n % 2 ^ 8 ≤ 144) then true
         else !(s.PORTD.testBit Fuel_LED)) := by
  refine ⟨init_desired_pulses_eq, init_pulse_error_allow_eq, ?_⟩
  intro s n hd ha hlock hz
  obtain ⟨-, -, hP, -, -⟩ := flowMeter_adjust_branch n s hlock hz
  rw [hP]
  have hm : n % 2 ^ 8 < 256 := Nat.mod_lt n (by norm_num)
  have hkey : peAbs s n ≤ (s.pulse_error_allow : Int) ↔
      (n % 2 ^ 8 = 13 ∨ (138 ≤ n % 2 ^ 8 ∧ n % 2 ^ 8 ≤ 144)) := by
    unfold peAbs pulseErrorOf
    rw [hd, ha]
    exact_mod_cast peAbs_141_spec (n % 2 ^ 8) hm
  by_cases hmem : n % 2 ^ 8 = 13 ∨ (138 ≤ n % 2 ^ 8 ∧ n % 2 ^ 8 ≤ 144)
  · rw [if_pos (hkey.mpr hmem), if_pos hmem]
    exact or_set_testBit s.PORTD Fuel_LED (by decide)
  · rw [if_neg (fun hc => hmem (hkey.mp hc)), if_neg hmem]
    exact xor_toggle_testBit s.PORTD Fuel_LED (by decide)

/-- Witness for C6: a window observing 140 pulses holds the fuel LED on. -/
theorem flow_nominal_indicator_witness :
    (flowMeter 140 pumpingMidRun).PORTD.testBit Fuel_LED = true := by
  rw [flow_nominal_indicator.2.2 pumpingMidRun 140 rfl rfl rfl (by decide)]
  decide

/-- C7: for the lock-out windows after entering Pumping, `flowMeter` leaves
the duty threshold `OCR1B` untouched and only decrements the lock-out
counter; `change_timers` initializes the lock-out counter to K = 5 and the
calibrated duty threshold to 450 = 1000 - trunc(1000 * 0.55), so the first
five windows after entering Pumping leave `OCR1B` exactly at 450 no matter
what pulse counts they observe. -/
theorem lockout_holds_duty :
    (∀ (n : Nat) (s : HCU), s.pump_lock ≠ 0 →
      (flowMeter n s).OCR1B = s.OCR1B ∧
      (flowMeter n s).pump_lock = s.pump_lock - 1) ∧
    (∀ s : HCU, (change_timers s).pump_lock = 5) ∧
    (∀ (s : HCU) (ns : List Nat), s.duty_cycle = 55/100 → ns.length ≤ 5 →
      (applyWindows ns (change_timers s)).OCR1B = 450) := by
  refine ⟨?_, ?_, ?_⟩
  · intro n s h
    obtain ⟨-, hO, hk, -, -⟩ := flowMeter_lock_branch n s h
    exact ⟨hO, hk⟩
  · exact change_timers_pump_lock
  · intro s ns hd hlen
    rw [applyWindows_lock_OCR1B ns (change_timers s)
      (by rw [change_timers_pump_lock]; exact hlen)]
    rw [change_timers_OCR1B, hd, trunc_1000_duty]
    rfl

/-- Witness for C7: three lock-out windows with arbitrary pulse counts
leave the calibrated duty threshold at 450. -/
theorem lockout_holds_duty_witness :
    (applyWindows [7, 200, 0] (change_timers { zState with
      duty_cycle := 55/100 })).OCR1B = 450 :=
  lockout_holds_duty.2.2 _ [7, 200, 0] rfl (by decide)

/-- C8: the heartbeat tick ratios per mode.  In Heating the Timer1 handler
toggles the warming LED every tick: over any 2k ticks it is on for exactly
k (1:1).  In Pumping the Timer2 handler, started with the Alive LED on and
the sub-counter at 0, keeps the LED on for 3 of every 4 ticks (3:1).  In
Exhausted it keeps the LED on for 2 of every 20 ticks (0.1 s on / 0.9 s
off, i.e. 1:9).  Full cadence periods realise the ratios exactly, hence
within one tick over any long run. -/
theorem heartbeat_cadence :
    (∀ (s : HCU) (k : Nat), s.opMode = 0 →
      ledOnCount timer1_ovf warmOn s (2 * k) = k) ∧
    (∀ (s : HCU) (k : Nat), s.opMode = 1 → s.alive_counter = 0 →
      aliveOn s = true → ledOnCount timer2_ovf aliveOn s (4 * k) = 3 * k) ∧
    (∀ (s : HCU) (k : Nat), s.opMode = 2 → s.alive_counter = 0 →
      aliveOn s = true →
      ledOnCount timer2_ovf aliveOn s (20 * k) = 2 * k) := by
  refine ⟨?_, ?_, ?_⟩
  · intro s k _
    exact ledOnCount_timer1 s k
  · intro s k h1 h2 h3
    rw [ledOnCount_eq_tripCount]
    have ht : trip s = (1, 0, true) := by
      unfold trip
      rw [h1, h2, h3]
    rw [ht]
    exact tripCount_pump_cycle k
  · intro s k h1 h2 h3
    rw [ledOnCount_eq_tripCount]
    have ht : trip s = (2, 0, true) := by
      unfold trip
      rw [h1, h2, h3]
    rw [ht]
    exact tripCount_exhaust_cycle k

/-- Witness for C8: two full Pumping cadence periods give 6 on-ticks out
of 8. -/
theorem heartbeat_cadence_witness :
    ledOnCount timer2_ovf aliveOn { zState with
      opMode := 1
      alive_counter := 0
      PORTD := 0b00100000
      TCNT2 := 11 } (4 * 2) = 3 * 2 :=
  heartbeat_cadence.2.1 _ 2 rfl rfl (by decide)

/-- C9: the satisfied bits in `desired_temp` are sticky — a scan pass only
ever ORs bits in, so any bit set stays set across every later main-loop
pass, whatever temperatures and pulse counts those passes observe: a
channel that once reported satisfied counts as satisfied in every later
all-channels-satisfied check even if its temperature has since fallen. -/
theorem satisfied_bits_sticky :
    (∀ (s : HCU) (i : Nat), s.desired_temp.testBit i = true →
      (tempHeaterHelper s).desired_temp.testBit i = true) ∧
    (∀ (steps : List ((Fin 6 → ℚ) × Nat)) (s : HCU) (i : Nat),
      s.desired_temp.testBit i = true →
      (runTrace steps s).desired_temp.testBit i = true) :=
  ⟨tempHeaterHelper_desired_mono, runTrace_desired_mono⟩

/-- Witness for C9: a set battery bit survives a pass whose readings are
all far below every setpoint. -/
theorem satisfied_bits_sticky_witness :
    (runTrace [(fun _ => -200, 0)] { zState with
      desired_temp := 1 }).desired_temp.testBit 0 = true :=
  satisfied_bits_sticky.2 _ _ 0 (by decide)

/-- C10: every `flowMeter` invocation decrements the window countdown
`pump_count` exactly once (modulo 2^8), before the exhaustion check; from
the entry state written by `change_timers` (`pump_count = 39`,
`pump_lock = 5`), any 39 flow windows — whatever pulse counts they
observe — drive the system into Exhausted mode. -/
theorem pump_window_countdown :
    (∀ (n : Nat) (s : HCU),
      (flowMeter n s).pump_count = (s.pump_count + 255) % 2 ^ 8) ∧
    (∀ (ns : List Nat) (s : HCU), s.pump_count = 39 → s.pump_lock = 5 →
      ns.length = 39 → (applyWindows ns s).opMode = 2) := by
  refine ⟨flowMeter_pump_count, ?_⟩
  intro ns s h1 h2 h3
  exact applyWindows_exhaust ns s (by omega) (by omega) (by omega)

/-- Witness for C10: 39 windows of 150 pulses each reach Exhausted mode. -/
theorem pump_window_countdown_witness :
    (applyWindows (List.replicate 39 150) { zState with
      opMode := 1
      desired_pulses := 141
      pulse_error_allow := 3
      ICR1 := 1000
      OCR1B := 450
      pump_count := 39
      pump_lock := 5 }).opMode = 2 :=
  pump_window_countdown.2 _ _ rfl rfl (by decide)
